import Mathlib

/-!
Verification of the drone GPS simulator (`drone-simulation.py`).

The physics state and its `update` operation are embedded as real-valued
functions; the two draws of `random.random()` made inside one `update`
call appear as explicit inputs `r1 r2 : ℝ` (the library guarantees a
draw lies in `[0, 1)`).  Python's float modulo with a positive modulus is
embedded as `pymod` over the reals.  The per-connection messaging layer
(`handle_client`, `physics_loop`, `message_handler`) is embedded as list
functions producing the frames each loop sends, and the joint supervision
of the two loops by `asyncio.gather(..., return_exceptions=True)` is
embedded as a small transition system.
-/

/-- Python's `x % y` on floats for a modulus `y > 0`: the result is
`x - y * floor (x / y)` (embedded over the reals). -/
noncomputable def pymod (x y : ℝ) : ℝ := x - y * ⌊x / y⌋

/-- State of `DronePhysics` (`drone-simulation.py`, lines 21–53): one field
per Python instance attribute, in declaration order. -/
structure DronePhysics where
  base_lat : ℝ
  base_lng : ℝ
  angle : ℝ
  angular_speed : ℝ
  radius : ℝ
  lat : ℝ
  lng : ℝ
  alt : ℝ
  vel_lat : ℝ
  vel_lng : ℝ
  vel_alt : ℝ
  acc_lat : ℝ
  acc_lng : ℝ
  acc_alt : ℝ
  target_lat : ℝ
  target_lng : ℝ
  target_alt : ℝ
  smooth_factor : ℝ
  noise_amplitude : ℝ

/-- `DronePhysics.__init__(init_lat, init_lng, init_alt)`
(`drone-simulation.py`, lines 21–53). -/
noncomputable def DronePhysics.init (init_lat init_lng init_alt : ℝ) :
    DronePhysics :=
  { base_lat := init_lat
    base_lng := init_lng
    angle := 0
    angular_speed := 0.15
    radius := 0.0008
    lat := init_lat + 0.0008 * Real.cos 0
    lng := init_lng + 0.0008 * Real.sin 0
    alt := init_alt
    vel_lat := -0.0008 * 0.15 * Real.sin 0
    vel_lng := 0.0008 * 0.15 * Real.cos 0
    vel_alt := 0
    acc_lat := -0.0008 * 0.15 ^ 2 * Real.cos 0
    acc_lng := -0.0008 * 0.15 ^ 2 * Real.sin 0
    acc_alt := 0
    target_lat := init_lat + 0.0008 * Real.cos 0
    target_lng := init_lng + 0.0008 * Real.sin 0
    target_alt := init_alt
    smooth_factor := 0.95
    noise_amplitude := 0.000001 }

/-- `DronePhysics.update(dt)` (`drone-simulation.py`, lines 55–95).
`r1` and `r2` are the values returned by the two `random.random()` calls
on lines 69–70, in order. -/
noncomputable def DronePhysics.update (s : DronePhysics) (dt r1 r2 : ℝ) :
    DronePhysics :=
  let angle := pymod (s.angle + s.angular_speed * dt) (2 * Real.pi)
  let new_lat := s.base_lat + s.radius * Real.cos angle
  let new_lng := s.base_lng + s.radius * Real.sin angle
  let lat := s.smooth_factor * s.lat + (1 - s.smooth_factor) * new_lat +
    (r1 - 0.5) * s.noise_amplitude
  let lng := s.smooth_factor * s.lng + (1 - s.smooth_factor) * new_lng +
    (r2 - 0.5) * s.noise_amplitude
  let raw_vel_lat := -s.radius * s.angular_speed * Real.sin angle
  let raw_vel_lng := s.radius * s.angular_speed * Real.cos angle
  let raw_acc_lat := -s.radius * s.angular_speed ^ 2 * Real.cos angle
  let raw_acc_lng := -s.radius * s.angular_speed ^ 2 * Real.sin angle
  { s with
    angle := angle
    lat := lat
    lng := lng
    vel_lat := s.smooth_factor * s.vel_lat + (1 - s.smooth_factor) * raw_vel_lat
    vel_lng := s.smooth_factor * s.vel_lng + (1 - s.smooth_factor) * raw_vel_lng
    vel_alt := 0
    acc_lat := s.smooth_factor * s.acc_lat + (1 - s.smooth_factor) * raw_acc_lat
    acc_lng := s.smooth_factor * s.acc_lng + (1 - s.smooth_factor) * raw_acc_lng
    acc_alt := 0
    target_lat := lat
    target_lng := lng
    target_alt := s.alt }

/-- A run of successive `update` calls: each list element is one call,
`(dt, r1, r2)`. -/
noncomputable def DronePhysics.run (s : DronePhysics) :
    List (ℝ × ℝ × ℝ) → DronePhysics
  | [] => s
  | t :: rest => DronePhysics.run (s.update t.1 t.2.1 t.2.2) rest

/-- Squared Euclidean distance (in degree coordinates) from the current
position to the circle center. -/
noncomputable def distSqToCenter (s : DronePhysics) : ℝ :=
  (s.lat - s.base_lat) ^ 2 + (s.lng - s.base_lng) ^ 2

theorem pymod_nonneg (x : ℝ) {y : ℝ} (hy : 0 < y) : 0 ≤ pymod x y := by
  have h : pymod x y = y * Int.fract (x / y) := by
    unfold pymod Int.fract
    rw [mul_sub, mul_div_cancel₀ _ hy.ne']
  rw [h]
  exact mul_nonneg hy.le (Int.fract_nonneg _)

theorem pymod_lt (x : ℝ) {y : ℝ} (hy : 0 < y) : pymod x y < y := by
  have h : pymod x y = y * Int.fract (x / y) := by
    unfold pymod Int.fract
    rw [mul_sub, mul_div_cancel₀ _ hy.ne']
  rw [h]
  calc y * Int.fract (x / y) < y * 1 :=
        (mul_lt_mul_left hy).mpr (Int.fract_lt_one _)
    _ = y := mul_one y

theorem pymod_eq_self {x y : ℝ} (hy : 0 < y) (h0 : 0 ≤ x) (hxy : x < y) :
    pymod x y = x := by
  have hfloor : ⌊x / y⌋ = 0 := by
    rw [Int.floor_eq_zero_iff]
    constructor
    · exact div_nonneg h0 hy.le
    · rw [div_lt_one hy]; exact hxy
  unfold pymod
  rw [hfloor]
  simp

@[simp] theorem update_angle (s : DronePhysics) (dt r1 r2 : ℝ) :
    (s.update dt r1 r2).angle =
      pymod (s.angle + s.angular_speed * dt) (2 * Real.pi) := rfl

@[simp] theorem update_lat (s : DronePhysics) (dt r1 r2 : ℝ) :
    (s.update dt r1 r2).lat =
      s.smooth_factor * s.lat + (1 - s.smooth_factor) *
        (s.base_lat + s.radius *
          Real.cos (pymod (s.angle + s.angular_speed * dt) (2 * Real.pi))) +
      (r1 - 0.5) * s.noise_amplitude := rfl

@[simp] theorem update_lng (s : DronePhysics) (dt r1 r2 : ℝ) :
    (s.update dt r1 r2).lng =
      s.smooth_factor * s.lng + (1 - s.smooth_factor) *
        (s.base_lng + s.radius *
          Real.sin (pymod (s.angle + s.angular_speed * dt) (2 * Real.pi))) +
      (r2 - 0.5) * s.noise_amplitude := rfl

@[simp] theorem update_alt (s : DronePhysics) (dt r1 r2 : ℝ) :
    (s.update dt r1 r2).alt = s.alt := rfl

@[simp] theorem update_vel_lat (s : DronePhysics) (dt r1 r2 : ℝ) :
    (s.update dt r1 r2).vel_lat =
      s.smooth_factor * s.vel_lat + (1 - s.smooth_factor) *
        (-s.radius * s.angular_speed *
          Real.sin (pymod (s.angle + s.angular_speed * dt) (2 * Real.pi))) := rfl

@[simp] theorem update_vel_lng (s : DronePhysics) (dt r1 r2 : ℝ) :
    (s.update dt r1 r2).vel_lng =
      s.smooth_factor * s.vel_lng + (1 - s.smooth_factor) *
        (s.radius * s.angular_speed *
          Real.cos (pymod (s.angle + s.angular_speed * dt) (2 * Real.pi))) := rfl

@[simp] theorem update_vel_alt (s : DronePhysics) (dt r1 r2 : ℝ) :
    (s.update dt r1 r2).vel_alt = 0 := rfl

@[simp] theorem update_acc_lat (s : DronePhysics) (dt r1 r2 : ℝ) :
    (s.update dt r1 r2).acc_lat =
      s.smooth_factor * s.acc_lat + (1 - s.smooth_factor) *
        (-s.radius * s.angular_speed ^ 2 *
          Real.cos (pymod (s.angle + s.angular_speed * dt) (2 * Real.pi))) := rfl

@[simp] theorem update_acc_lng (s : DronePhysics) (dt r1 r2 : ℝ) :
    (s.update dt r1 r2).acc_lng =
      s.smooth_factor * s.acc_lng + (1 - s.smooth_factor) *
        (-s.radius * s.angular_speed ^ 2 *
          Real.sin (pymod (s.angle + s.angular_speed * dt) (2 * Real.pi))) := rfl

@[simp] theorem update_acc_alt (s : DronePhysics) (dt r1 r2 : ℝ) :
    (s.update dt r1 r2).acc_alt = 0 := rfl

@[simp] theorem update_target_lat (s : DronePhysics) (dt r1 r2 : ℝ) :
    (s.update dt r1 r2).target_lat = (s.update dt r1 r2).lat := rfl

@[simp] theorem update_target_lng (s : DronePhysics) (dt r1 r2 : ℝ) :
    (s.update dt r1 r2).target_lng = (s.update dt r1 r2).lng := rfl

@[simp] theorem update_target_alt (s : DronePhysics) (dt r1 r2 : ℝ) :
    (s.update dt r1 r2).target_alt = s.alt := rfl

@[simp] theorem update_base_lat (s : DronePhysics) (dt r1 r2 : ℝ) :
    (s.update dt r1 r2).base_lat = s.base_lat := rfl

@[simp] theorem update_base_lng (s : DronePhysics) (dt r1 r2 : ℝ) :
    (s.update dt r1 r2).base_lng = s.base_lng := rfl

@[simp] theorem update_angular_speed (s : DronePhysics) (dt r1 r2 : ℝ) :
    (s.update dt r1 r2).angular_speed = s.angular_speed := rfl

@[simp] theorem update_radius (s : DronePhysics) (dt r1 r2 : ℝ) :
    (s.update dt r1 r2).radius = s.radius := rfl

@[simp] theorem update_smooth_factor (s : DronePhysics) (dt r1 r2 : ℝ) :
    (s.update dt r1 r2).smooth_factor = s.smooth_factor := rfl

@[simp] theorem update_noise_amplitude (s : DronePhysics) (dt r1 r2 : ℝ) :
    (s.update dt r1 r2).noise_amplitude = s.noise_amplitude := rfl

@[simp] theorem run_nil (s : DronePhysics) : s.run [] = s := rfl

@[simp] theorem run_cons (s : DronePhysics) (t : ℝ × ℝ × ℝ)
    (l : List (ℝ × ℝ × ℝ)) :
    s.run (t :: l) = (s.update t.1 t.2.1 t.2.2).run l := rfl

@[simp] theorem init_base_lat (a b c : ℝ) :
    (DronePhysics.init a b c).base_lat = a := rfl

@[simp] theorem init_base_lng (a b c : ℝ) :
    (DronePhysics.init a b c).base_lng = b := rfl

@[simp] theorem init_angle (a b c : ℝ) :
    (DronePhysics.init a b c).angle = 0 := rfl

@[simp] theorem init_angular_speed (a b c : ℝ) :
    (DronePhysics.init a b c).angular_speed = 0.15 := rfl

@[simp] theorem init_radius (a b c : ℝ) :
    (DronePhysics.init a b c).radius = 0.0008 := rfl

@[simp] theorem init_lat (a b c : ℝ) :
    (DronePhysics.init a b c).lat = a + 0.0008 * Real.cos 0 := rfl

@[simp] theorem init_lng (a b c : ℝ) :
    (DronePhysics.init a b c).lng = b + 0.0008 * Real.sin 0 := rfl

@[simp] theorem init_alt (a b c : ℝ) :
    (DronePhysics.init a b c).alt = c := rfl

@[simp] theorem init_vel_lat (a b c : ℝ) :
    (DronePhysics.init a b c).vel_lat = -0.0008 * 0.15 * Real.sin 0 := rfl

@[simp] theorem init_vel_lng (a b c : ℝ) :
    (DronePhysics.init a b c).vel_lng = 0.0008 * 0.15 * Real.cos 0 := rfl

@[simp] theorem init_vel_alt (a b c : ℝ) :
    (DronePhysics.init a b c).vel_alt = 0 := rfl

@[simp] theorem init_acc_lat (a b c : ℝ) :
    (DronePhysics.init a b c).acc_lat = -0.0008 * 0.15 ^ 2 * Real.cos 0 := rfl

@[simp] theorem init_acc_lng (a b c : ℝ) :
    (DronePhysics.init a b c).acc_lng = -0.0008 * 0.15 ^ 2 * Real.sin 0 := rfl

@[simp] theorem init_acc_alt (a b c : ℝ) :
    (DronePhysics.init a b c).acc_alt = 0 := rfl

@[simp] theorem init_smooth_factor (a b c : ℝ) :
    (DronePhysics.init a b c).smooth_factor = 0.95 := rfl

@[simp] theorem init_noise_amplitude (a b c : ℝ) :
    (DronePhysics.init a b c).noise_amplitude = 0.000001 := rfl

/-- The spec's description of one `advance(dt)` call (spec §4.1, steps 1–6),
written from the spec's words, to be compared with `DronePhysics.update`:
the angle advances by `angular_speed * dt` wrapped into `[0, 2π)`; each
position axis becomes `0.95` times its previous value plus `0.05` times the
ideal circle point at the new angle, then per-axis noise in
`[-amplitude/2, amplitude/2]` is added; velocity and acceleration are
smoothed by the same `0.95`/`0.05` blend toward the analytic circular-motion
values at the new angle with no noise; altitude is unchanged and the target
equals the resulting position and the fixed altitude. -/
noncomputable def advanceSpec (s s' : DronePhysics) (dt : ℝ) : Prop :=
  s'.angle = pymod (s.angle + s.angular_speed * dt) (2 * Real.pi) ∧
  (∃ noise_lat noise_lng : ℝ,
    -(0.000001 / 2) ≤ noise_lat ∧ noise_lat ≤ 0.000001 / 2 ∧
    -(0.000001 / 2) ≤ noise_lng ∧ noise_lng ≤ 0.000001 / 2 ∧
    s'.lat = 0.95 * s.lat +
      0.05 * (s.base_lat + s.radius * Real.cos s'.angle) + noise_lat ∧
    s'.lng = 0.95 * s.lng +
      0.05 * (s.base_lng + s.radius * Real.sin s'.angle) + noise_lng) ∧
  s'.vel_lat = 0.95 * s.vel_lat +
    0.05 * (-s.radius * s.angular_speed * Real.sin s'.angle) ∧
  s'.vel_lng = 0.95 * s.vel_lng +
    0.05 * (s.radius * s.angular_speed * Real.cos s'.angle) ∧
  s'.vel_alt = 0 ∧
  s'.acc_lat = 0.95 * s.acc_lat +
    0.05 * (-s.radius * s.angular_speed ^ 2 * Real.cos s'.angle) ∧
  s'.acc_lng = 0.95 * s.acc_lng +
    0.05 * (-s.radius * s.angular_speed ^ 2 * Real.sin s'.angle) ∧
  s'.acc_alt = 0 ∧
  s'.alt = s.alt ∧
  s'.target_lat = s'.lat ∧ s'.target_lng = s'.lng ∧ s'.target_alt = s.alt

/-- C1: a single `update dt r1 r2` call with `dt ≥ 0` and random draws in
`[0, 1)` performs exactly the spec's step sequence: smooth each position
axis `0.95`/`0.05` toward the ideal circle point at the new wrapped angle,
add per-axis noise in `[-amplitude/2, amplitude/2]`, smooth velocity and
acceleration toward the analytic values with no noise, and set the target
to the resulting position and the fixed altitude. -/
theorem update_advance_spec (s : DronePhysics) (dt r1 r2 : ℝ)
    (hdt : 0 ≤ dt) (hr1 : 0 ≤ r1) (hr1' : r1 < 1) (hr2 : 0 ≤ r2)
    (hr2' : r2 < 1) (hsf : s.smooth_factor = 0.95)
    (hna : s.noise_amplitude = 0.000001) :
    advanceSpec s (s.update dt r1 r2) dt := by
  refine ⟨rfl, ⟨(r1 - 0.5) * 0.000001, (r2 - 0.5) * 0.000001,
    by nlinarith, by nlinarith, by nlinarith, by nlinarith, ?_, ?_⟩,
    ?_, ?_, rfl, ?_, ?_, rfl, rfl, rfl, rfl, rfl⟩ <;>
  · simp only [update_lat, update_lng, update_vel_lat, update_vel_lng,
      update_acc_lat, update_acc_lng, update_angle, hsf, hna]
    norm_num

/-- Witness for C1 at a concrete state and inputs. -/
theorem update_advance_spec_witness :
    advanceSpec (DronePhysics.init 53.218282 63.658686 120)
      ((DronePhysics.init 53.218282 63.658686 120).update 0 (1/2) (1/2)) 0 :=
  update_advance_spec (DronePhysics.init 53.218282 63.658686 120) 0 (1/2) (1/2)
    (by norm_num) (by norm_num) (by norm_num) (by norm_num) (by norm_num)
    (by norm_num) (by norm_num)

theorem run_angle_mem (l : List (ℝ × ℝ × ℝ)) (s : DronePhysics)
    (hl : l ≠ []) :
    0 ≤ (s.run l).angle ∧ (s.run l).angle < 2 * Real.pi := by
  induction l generalizing s with
  | nil => exact absurd rfl hl
  | cons t rest ih =>
    cases rest with
    | nil =>
      simp only [run_cons, run_nil, update_angle]
      exact ⟨pymod_nonneg _ Real.two_pi_pos, pymod_lt _ Real.two_pi_pos⟩
    | cons u rest2 =>
      rw [run_cons]
      exact ih _ (by simp)

/-- C4: starting from a freshly constructed model, after every `advance`
call of a sequence with `dt ≥ 0` the `angle` field lies in `[0, 2π)`. -/
theorem angle_in_range (a b c : ℝ) (l : List (ℝ × ℝ × ℝ)) (hl : l ≠ [])
    (hdt : ∀ x ∈ l, 0 ≤ x.1) :
    0 ≤ ((DronePhysics.init a b c).run l).angle ∧
      ((DronePhysics.init a b c).run l).angle < 2 * Real.pi :=
  run_angle_mem l _ hl

/-- Witness for C4: one `advance 0` call from the fresh model. -/
theorem angle_in_range_witness :
    0 ≤ ((DronePhysics.init 53.218282 63.658686 120).run
        [(0, 1/2, 1/2)]).angle ∧
      ((DronePhysics.init 53.218282 63.658686 120).run
        [(0, 1/2, 1/2)]).angle < 2 * Real.pi :=
  angle_in_range 53.218282 63.658686 120 [(0, 1/2, 1/2)] (by simp)
    (by norm_num)

/-- C10: `update` is a total function of the state and any real `dt`
(the embedding of Python's `%` by the positive constant `2π` is defined
for every real argument, so no call can fail), and even for negative `dt`
the resulting `angle` lies in `[0, 2π)`. -/
theorem update_total_angle_range (s : DronePhysics) (dt r1 r2 : ℝ) :
    0 ≤ (s.update dt r1 r2).angle ∧
      (s.update dt r1 r2).angle < 2 * Real.pi := by
  rw [update_angle]
  exact ⟨pymod_nonneg _ Real.two_pi_pos, pymod_lt _ Real.two_pi_pos⟩

theorem run_alt (l : List (ℝ × ℝ × ℝ)) (s : DronePhysics) :
    (s.run l).alt = s.alt := by
  induction l generalizing s with
  | nil => rfl
  | cons t rest ih => rw [run_cons, ih, update_alt]

theorem run_vel_alt (l : List (ℝ × ℝ × ℝ)) (s : DronePhysics)
    (h : s.vel_alt = 0) : (s.run l).vel_alt = 0 := by
  induction l generalizing s with
  | nil => exact h
  | cons t rest ih => rw [run_cons]; exact ih _ (update_vel_alt ..)

theorem run_acc_alt (l : List (ℝ × ℝ × ℝ)) (s : DronePhysics)
    (h : s.acc_alt = 0) : (s.run l).acc_alt = 0 := by
  induction l generalizing s with
  | nil => exact h
  | cons t rest ih => rw [run_cons]; exact ih _ (update_acc_alt ..)

/-- C5: along every sequence of `advance` calls with `dt ≥ 0` from a fresh
model, the altitude equals the construction constant and the vertical
components of velocity and acceleration are exactly zero. -/
theorem altitude_constant (a b c : ℝ) (l : List (ℝ × ℝ × ℝ))
    (hdt : ∀ x ∈ l, 0 ≤ x.1) :
    ((DronePhysics.init a b c).run l).alt = c ∧
      ((DronePhysics.init a b c).run l).vel_alt = 0 ∧
      ((DronePhysics.init a b c).run l).acc_alt = 0 :=
  ⟨run_alt l _, run_vel_alt l _ (init_vel_alt ..), run_acc_alt l _ (init_acc_alt ..)⟩

/-- Witness for C5: one `advance 0` call from the fresh model. -/
theorem altitude_constant_witness :
    ((DronePhysics.init 53.218282 63.658686 120).run [(0, 1/2, 1/2)]).alt = 120 ∧
      ((DronePhysics.init 53.218282 63.658686 120).run [(0, 1/2, 1/2)]).vel_alt = 0 ∧
      ((DronePhysics.init 53.218282 63.658686 120).run [(0, 1/2, 1/2)]).acc_alt = 0 :=
  altitude_constant 53.218282 63.658686 120 [(0, 1/2, 1/2)] (by norm_num)

/-- The noise-independent core of the state: angle, the fixed constants the
update reads, and the velocity/acceleration estimates. -/
def AgreeCore (s t : DronePhysics) : Prop :=
  s.angle = t.angle ∧ s.angular_speed = t.angular_speed ∧
  s.radius = t.radius ∧ s.smooth_factor = t.smooth_factor ∧
  s.vel_lat = t.vel_lat ∧ s.vel_lng = t.vel_lng ∧ s.vel_alt = t.vel_alt ∧
  s.acc_lat = t.acc_lat ∧ s.acc_lng = t.acc_lng ∧ s.acc_alt = t.acc_alt

theorem agreeCore_update {s t : DronePhysics} (h : AgreeCore s t)
    (dt r1 r2 q1 q2 : ℝ) :
    AgreeCore (s.update dt r1 r2) (t.update dt q1 q2) := by
  obtain ⟨h1, h2, h3, h4, h5, h6, h7, h8, h9, h10⟩ := h
  refine ⟨?_, ?_, ?_, ?_, ?_, ?_, ?_, ?_, ?_, ?_⟩ <;>
    simp [h1, h2, h3, h4, h5, h6, h7, h8, h9, h10]

theorem agreeCore_run {s t : DronePhysics} (h : AgreeCore s t)
    (l1 l2 : List (ℝ × ℝ × ℝ)) (hl : l1.map Prod.fst = l2.map Prod.fst) :
    AgreeCore (s.run l1) (t.run l2) := by
  induction l1 generalizing l2 s t with
  | nil =>
    have : l2 = [] := by
      cases l2 with
      | nil => rfl
      | cons y t2 => simp at hl
    rw [this]
    exact h
  | cons x t1 ih =>
    cases l2 with
    | nil => simp at hl
    | cons y t2 =>
      simp only [List.map_cons, List.cons.injEq] at hl
      rw [run_cons, run_cons, ← hl.1]
      exact ih (agreeCore_update h x.1 x.2.1 x.2.2 y.2.1 y.2.2) t2 hl.2

/-- C8: two runs from the same fresh model with the same `dt` sequence but
different random noise draws have identical angle, velocity, and
acceleration fields after every corresponding `advance` call — the noise
influences only the position and target fields. -/
theorem noise_noninterference (a b c : ℝ) (l1 l2 : List (ℝ × ℝ × ℝ))
    (hl : l1.map Prod.fst = l2.map Prod.fst) :
    ((DronePhysics.init a b c).run l1).angle =
        ((DronePhysics.init a b c).run l2).angle ∧
      ((DronePhysics.init a b c).run l1).vel_lat =
        ((DronePhysics.init a b c).run l2).vel_lat ∧
      ((DronePhysics.init a b c).run l1).vel_lng =
        ((DronePhysics.init a b c).run l2).vel_lng ∧
      ((DronePhysics.init a b c).run l1).vel_alt =
        ((DronePhysics.init a b c).run l2).vel_alt ∧
      ((DronePhysics.init a b c).run l1).acc_lat =
        ((DronePhysics.init a b c).run l2).acc_lat ∧
      ((DronePhysics.init a b c).run l1).acc_lng =
        ((DronePhysics.init a b c).run l2).acc_lng ∧
      ((DronePhysics.init a b c).run l1).acc_alt =
        ((DronePhysics.init a b c).run l2).acc_alt := by
  have h := agreeCore_run (s := DronePhysics.init a b c)
    (t := DronePhysics.init a b c)
    ⟨rfl, rfl, rfl, rfl, rfl, rfl, rfl, rfl, rfl, rfl⟩ l1 l2 hl
  exact ⟨h.1, h.2.2.2.2.1, h.2.2.2.2.2.1, h.2.2.2.2.2.2.1,
    h.2.2.2.2.2.2.2.1, h.2.2.2.2.2.2.2.2.1, h.2.2.2.2.2.2.2.2.2⟩

/-- Witness for C8: same single `dt = 1` step under two different noise
draws. -/
theorem noise_noninterference_witness :
    ((DronePhysics.init 53.218282 63.658686 120).run [(1, 0, 0)]).angle =
        ((DronePhysics.init 53.218282 63.658686 120).run
          [(1, 0.75, 0.25)]).angle ∧
      ((DronePhysics.init 53.218282 63.658686 120).run [(1, 0, 0)]).vel_lat =
        ((DronePhysics.init 53.218282 63.658686 120).run
          [(1, 0.75, 0.25)]).vel_lat ∧
      ((DronePhysics.init 53.218282 63.658686 120).run [(1, 0, 0)]).vel_lng =
        ((DronePhysics.init 53.218282 63.658686 120).run
          [(1, 0.75, 0.25)]).vel_lng ∧
      ((DronePhysics.init 53.218282 63.658686 120).run [(1, 0, 0)]).vel_alt =
        ((DronePhysics.init 53.218282 63.658686 120).run
          [(1, 0.75, 0.25)]).vel_alt ∧
      ((DronePhysics.init 53.218282 63.658686 120).run [(1, 0, 0)]).acc_lat =
        ((DronePhysics.init 53.218282 63.658686 120).run
          [(1, 0.75, 0.25)]).acc_lat ∧
      ((DronePhysics.init 53.218282 63.658686 120).run [(1, 0, 0)]).acc_lng =
        ((DronePhysics.init 53.218282 63.658686 120).run
          [(1, 0.75, 0.25)]).acc_lng ∧
      ((DronePhysics.init 53.218282 63.658686 120).run [(1, 0, 0)]).acc_alt =
        ((DronePhysics.init 53.218282 63.658686 120).run
          [(1, 0.75, 0.25)]).acc_alt :=
  noise_noninterference 53.218282 63.658686 120 [(1, 0, 0)] [(1, 0.75, 0.25)]
    (by norm_num)

@[simp] theorem pymod_zero (y : ℝ) : pymod 0 y = 0 := by
  unfold pymod
  simp

/-- Counterexample to C3: three `advance 0` calls from the fresh model,
each with both random draws equal to `0.999` (a legal value of
`random.random()`), leave the position at squared distance greater than
`(radius + noise_amplitude)²` from the center — the noise accumulates
through the `0.95` smoothing with geometric sum `1/0.05`, so the
claimed band `radius + noise_amplitude` is exceeded. -/
theorem position_bound_counterexample :
    distSqToCenter ((DronePhysics.init 53.218282 63.658686 120).run
      [(0, 0.999, 0.999), (0, 0.999, 0.999), (0, 0.999, 0.999)]) >
    (0.0008 + 0.000001) ^ 2 := by
  simp only [DronePhysics.run, DronePhysics.update, DronePhysics.init,
    distSqToCenter, pymod_zero, mul_zero, add_zero, Real.cos_zero,
    Real.sin_zero]
  norm_num

theorem update_lat_band {s : DronePhysics} {dt r1 r2 : ℝ}
    (hr : s.radius = 0.0008) (hsf : s.smooth_factor = 0.95)
    (hna : s.noise_amplitude = 0.000001) (h1 : 0 ≤ r1) (h2 : r1 ≤ 1)
    (hlat : |s.lat - s.base_lat| ≤ 0.0008 + 10 * 0.000001) :
    |(s.update dt r1 r2).lat - (s.update dt r1 r2).base_lat| ≤
      0.0008 + 10 * 0.000001 := by
  rw [update_lat, update_base_lat, hr, hsf, hna]
  rw [abs_le] at hlat ⊢
  have hcos1 := Real.neg_one_le_cos
    (pymod (s.angle + s.angular_speed * dt) (2 * Real.pi))
  have hcos2 := Real.cos_le_one
    (pymod (s.angle + s.angular_speed * dt) (2 * Real.pi))
  constructor <;> nlinarith [hlat.1, hlat.2]

theorem update_lng_band {s : DronePhysics} {dt r1 r2 : ℝ}
    (hr : s.radius = 0.0008) (hsf : s.smooth_factor = 0.95)
    (hna : s.noise_amplitude = 0.000001) (h1 : 0 ≤ r2) (h2 : r2 ≤ 1)
    (hlng : |s.lng - s.base_lng| ≤ 0.0008 + 10 * 0.000001) :
    |(s.update dt r1 r2).lng - (s.update dt r1 r2).base_lng| ≤
      0.0008 + 10 * 0.000001 := by
  rw [update_lng, update_base_lng, hr, hsf, hna]
  rw [abs_le] at hlng ⊢
  have hsin1 := Real.neg_one_le_sin
    (pymod (s.angle + s.angular_speed * dt) (2 * Real.pi))
  have hsin2 := Real.sin_le_one
    (pymod (s.angle + s.angular_speed * dt) (2 * Real.pi))
  constructor <;> nlinarith [hlng.1, hlng.2]

theorem run_in_band (l : List (ℝ × ℝ × ℝ)) (s : DronePhysics)
    (hrand : ∀ x ∈ l, 0 ≤ x.2.1 ∧ x.2.1 ≤ 1 ∧ 0 ≤ x.2.2 ∧ x.2.2 ≤ 1)
    (hr : s.radius = 0.0008) (hsf : s.smooth_factor = 0.95)
    (hna : s.noise_amplitude = 0.000001)
    (hlat : |s.lat - s.base_lat| ≤ 0.0008 + 10 * 0.000001)
    (hlng : |s.lng - s.base_lng| ≤ 0.0008 + 10 * 0.000001) :
    |(s.run l).lat - (s.run l).base_lat| ≤ 0.0008 + 10 * 0.000001 ∧
      |(s.run l).lng - (s.run l).base_lng| ≤ 0.0008 + 10 * 0.000001 := by
  induction l generalizing s with
  | nil => exact ⟨hlat, hlng⟩
  | cons x rest ih =>
    have hx := hrand x (List.mem_cons_self ..)
    rw [run_cons]
    exact ih _ (fun y hy => hrand y (List.mem_cons_of_mem _ hy))
      (by simp [hr]) (by simp [hsf]) (by simp [hna])
      (update_lat_band hr hsf hna hx.1 hx.2.1 hlat)
      (update_lng_band hr hsf hna hx.2.2.1 hx.2.2.2 hlng)

/-- C3 amended: along every `advance` sequence with `dt ≥ 0` from a fresh
model, each position axis stays within `radius + 10 * noise_amplitude` of
the corresponding center coordinate, so the squared Euclidean distance to
the center is at most `2 * (radius + 10 * noise_amplitude)²` (the position
lies within `√2 * (radius + 10 * noise_amplitude)` of the center). -/
theorem position_bounded_amended (a b c : ℝ) (l : List (ℝ × ℝ × ℝ))
    (hdt : ∀ x ∈ l, 0 ≤ x.1)
    (hrand : ∀ x ∈ l, 0 ≤ x.2.1 ∧ x.2.1 ≤ 1 ∧ 0 ≤ x.2.2 ∧ x.2.2 ≤ 1) :
    distSqToCenter ((DronePhysics.init a b c).run l) ≤
      2 * (0.0008 + 10 * 0.000001) ^ 2 := by
  have hband := run_in_band l (DronePhysics.init a b c) hrand
    (init_radius ..) (init_smooth_factor ..) (init_noise_amplitude ..)
    (by rw [init_lat, init_base_lat]; rw [abs_le]; norm_num)
    (by rw [init_lng, init_base_lng]; rw [abs_le]; norm_num)
  obtain ⟨h1, h3⟩ := hband
  rw [abs_le] at h1 h3
  unfold distSqToCenter
  nlinarith [h1.1, h1.2, h3.1, h3.2]

/-- Witness for the amended C3 at a concrete run. -/
theorem position_bounded_amended_witness :
    distSqToCenter ((DronePhysics.init 53.218282 63.658686 120).run
      [(0, 0.999, 0.999)]) ≤ 2 * (0.0008 + 10 * 0.000001) ^ 2 :=
  position_bounded_amended 53.218282 63.658686 120 [(0, 0.999, 0.999)]
    (by norm_num) (by norm_num)

theorem update_zero_angle {s : DronePhysics} (r1 r2 : ℝ)
    (h0 : 0 ≤ s.angle) (h1 : s.angle < 2 * Real.pi) :
    (s.update 0 r1 r2).angle = s.angle := by
  rw [update_angle, mul_zero, add_zero]
  exact pymod_eq_self Real.two_pi_pos h0 h1

theorem update_zero_lat_diff {s : DronePhysics} (r1 r2 : ℝ)
    (h0 : 0 ≤ s.angle) (h1 : s.angle < 2 * Real.pi)
    (hsf : s.smooth_factor = 0.95) (hna : s.noise_amplitude = 0.000001) :
    (s.update 0 r1 r2).lat - (s.base_lat + s.radius * Real.cos s.angle) =
      0.95 * (s.lat - (s.base_lat + s.radius * Real.cos s.angle)) +
      (r1 - 0.5) * 0.000001 := by
  rw [update_lat, mul_zero, add_zero, pymod_eq_self Real.two_pi_pos h0 h1,
    hsf, hna]
  ring

theorem update_zero_lng_diff {s : DronePhysics} (r1 r2 : ℝ)
    (h0 : 0 ≤ s.angle) (h1 : s.angle < 2 * Real.pi)
    (hsf : s.smooth_factor = 0.95) (hna : s.noise_amplitude = 0.000001) :
    (s.update 0 r1 r2).lng - (s.base_lng + s.radius * Real.sin s.angle) =
      0.95 * (s.lng - (s.base_lng + s.radius * Real.sin s.angle)) +
      (r2 - 0.5) * 0.000001 := by
  rw [update_lng, mul_zero, add_zero, pymod_eq_self Real.two_pi_pos h0 h1,
    hsf, hna]
  ring

theorem advance_zero_exact (n : ℕ) (s : DronePhysics)
    (h0 : 0 ≤ s.angle) (h1 : s.angle < 2 * Real.pi)
    (hsf : s.smooth_factor = 0.95) (hna : s.noise_amplitude = 0.000001) :
    (s.run (List.replicate n (0, 1/2, 1/2))).angle = s.angle ∧
      (s.run (List.replicate n (0, 1/2, 1/2))).lat -
          (s.base_lat + s.radius * Real.cos s.angle) =
        0.95 ^ n * (s.lat - (s.base_lat + s.radius * Real.cos s.angle)) ∧
      (s.run (List.replicate n (0, 1/2, 1/2))).lng -
          (s.base_lng + s.radius * Real.sin s.angle) =
        0.95 ^ n * (s.lng - (s.base_lng + s.radius * Real.sin s.angle)) := by
  induction n generalizing s with
  | zero => simp
  | succ m ih =>
    rw [List.replicate_succ, run_cons]
    have hang := update_zero_angle (s := s) (1/2) (1/2) h0 h1
    have hih := ih (s.update 0 (1/2) (1/2)) (by rw [hang]; exact h0)
      (by rw [hang]; exact h1) (by simp [hsf]) (by simp [hna])
    have hid_lat : (s.update 0 (1/2) (1/2)).base_lat +
        (s.update 0 (1/2) (1/2)).radius *
          Real.cos (s.update 0 (1/2) (1/2)).angle =
        s.base_lat + s.radius * Real.cos s.angle := by
      rw [update_base_lat, update_radius, hang]
    have hid_lng : (s.update 0 (1/2) (1/2)).base_lng +
        (s.update 0 (1/2) (1/2)).radius *
          Real.sin (s.update 0 (1/2) (1/2)).angle =
        s.base_lng + s.radius * Real.sin s.angle := by
      rw [update_base_lng, update_radius, hang]
    rw [hid_lat, hid_lng, hang] at hih
    have hlat := update_zero_lat_diff (s := s) (1/2) (1/2) h0 h1 hsf hna
    have hlng := update_zero_lng_diff (s := s) (1/2) (1/2) h0 h1 hsf hna
    refine ⟨hih.1, ?_, ?_⟩
    · rw [hih.2.1, hlat, pow_succ]
      ring
    · rw [hih.2.2, hlng, pow_succ]
      ring

theorem advance_zero_noisy (l : List (ℝ × ℝ)) (s : DronePhysics)
    (hrand : ∀ p ∈ l, 0 ≤ p.1 ∧ p.1 ≤ 1 ∧ 0 ≤ p.2 ∧ p.2 ≤ 1)
    (h0 : 0 ≤ s.angle) (h1 : s.angle < 2 * Real.pi)
    (hsf : s.smooth_factor = 0.95) (hna : s.noise_amplitude = 0.000001) :
    (s.run (l.map (fun p => (0, p.1, p.2)))).angle = s.angle ∧
      |(s.run (l.map (fun p => (0, p.1, p.2)))).lat -
          (s.base_lat + s.radius * Real.cos s.angle)| ≤
        0.95 ^ l.length * |s.lat - (s.base_lat + s.radius * Real.cos s.angle)| +
        10 * 0.000001 * (1 - 0.95 ^ l.length) ∧
      |(s.run (l.map (fun p => (0, p.1, p.2)))).lng -
          (s.base_lng + s.radius * Real.sin s.angle)| ≤
        0.95 ^ l.length * |s.lng - (s.base_lng + s.radius * Real.sin s.angle)| +
        10 * 0.000001 * (1 - 0.95 ^ l.length) := by
  induction l generalizing s with
  | nil => simp
  | cons p rest ih =>
    rw [List.map_cons, run_cons, List.length_cons]
    have hp := hrand p (List.mem_cons_self ..)
    have hang := update_zero_angle (s := s) p.1 p.2 h0 h1
    have hih := ih (s.update 0 p.1 p.2)
      (fun q hq => hrand q (List.mem_cons_of_mem _ hq))
      (by rw [hang]; exact h0) (by rw [hang]; exact h1)
      (by simp [hsf]) (by simp [hna])
    have hid_lat : (s.update 0 p.1 p.2).base_lat +
        (s.update 0 p.1 p.2).radius * Real.cos (s.update 0 p.1 p.2).angle =
        s.base_lat + s.radius * Real.cos s.angle := by
      rw [update_base_lat, update_radius, hang]
    have hid_lng : (s.update 0 p.1 p.2).base_lng +
        (s.update 0 p.1 p.2).radius * Real.sin (s.update 0 p.1 p.2).angle =
        s.base_lng + s.radius * Real.sin s.angle := by
      rw [update_base_lng, update_radius, hang]
    rw [hid_lat, hid_lng, hang] at hih
    have hpow : (0:ℝ) ≤ 0.95 ^ rest.length := by positivity
    have hlat_step : |(s.update 0 p.1 p.2).lat -
        (s.base_lat + s.radius * Real.cos s.angle)| ≤
        0.95 * |s.lat - (s.base_lat + s.radius * Real.cos s.angle)| +
          0.0000005 := by
      rw [update_zero_lat_diff p.1 p.2 h0 h1 hsf hna]
      refine (abs_add _ _).trans ?_
      rw [abs_mul, abs_mul]
      have hb : |p.1 - 0.5| ≤ 0.5 :=
        abs_le.mpr ⟨by linarith [hp.1], by linarith [hp.2.1]⟩
      have ha : |(0.95:ℝ)| = 0.95 := by norm_num
      have hc : |(0.000001:ℝ)| = 0.000001 := by norm_num
      rw [ha, hc]
      linarith [hb]
    have hlng_step : |(s.update 0 p.1 p.2).lng -
        (s.base_lng + s.radius * Real.sin s.angle)| ≤
        0.95 * |s.lng - (s.base_lng + s.radius * Real.sin s.angle)| +
          0.0000005 := by
      rw [update_zero_lng_diff p.1 p.2 h0 h1 hsf hna]
      refine (abs_add _ _).trans ?_
      rw [abs_mul, abs_mul]
      have hb : |p.2 - 0.5| ≤ 0.5 :=
        abs_le.mpr ⟨by linarith [hp.2.2.1], by linarith [hp.2.2.2]⟩
      have ha : |(0.95:ℝ)| = 0.95 := by norm_num
      have hc : |(0.000001:ℝ)| = 0.000001 := by norm_num
      rw [ha, hc]
      linarith [hb]
    refine ⟨hih.1, ?_, ?_⟩
    · have hmul := mul_le_mul_of_nonneg_left hlat_step hpow
      calc |((s.update 0 p.1 p.2).run (rest.map (fun p => (0, p.1, p.2)))).lat -
            (s.base_lat + s.radius * Real.cos s.angle)| ≤
            0.95 ^ rest.length *
              |(s.update 0 p.1 p.2).lat -
                (s.base_lat + s.radius * Real.cos s.angle)| +
            10 * 0.000001 * (1 - 0.95 ^ rest.length) := hih.2.1
        _ ≤ 0.95 ^ rest.length *
              (0.95 * |s.lat - (s.base_lat + s.radius * Real.cos s.angle)| +
                0.0000005) +
            10 * 0.000001 * (1 - 0.95 ^ rest.length) := by linarith
        _ = 0.95 ^ (rest.length + 1) *
              |s.lat - (s.base_lat + s.radius * Real.cos s.angle)| +
            10 * 0.000001 * (1 - 0.95 ^ (rest.length + 1)) := by
              rw [pow_succ]
              ring
    · have hmul := mul_le_mul_of_nonneg_left hlng_step hpow
      calc |((s.update 0 p.1 p.2).run (rest.map (fun p => (0, p.1, p.2)))).lng -
            (s.base_lng + s.radius * Real.sin s.angle)| ≤
            0.95 ^ rest.length *
              |(s.update 0 p.1 p.2).lng -
                (s.base_lng + s.radius * Real.sin s.angle)| +
            10 * 0.000001 * (1 - 0.95 ^ rest.length) := hih.2.2
        _ ≤ 0.95 ^ rest.length *
              (0.95 * |s.lng - (s.base_lng + s.radius * Real.sin s.angle)| +
                0.0000005) +
            10 * 0.000001 * (1 - 0.95 ^ rest.length) := by linarith
        _ = 0.95 ^ (rest.length + 1) *
              |s.lng - (s.base_lng + s.radius * Real.sin s.angle)| +
            10 * 0.000001 * (1 - 0.95 ^ (rest.length + 1)) := by
              rw [pow_succ]
              ring

/-- C9: from any state whose angle is in `[0, 2π)` (with the constructed
smoothing constants), repeated `advance 0` calls keep the angle frozen;
with arbitrary noise draws in `[0, 1]` the position converges toward the
ideal circle point at the frozen angle up to a `10 * noise_amplitude`
band (geometric decay `0.95 ^ n` of the initial offset), and with the
noise set to zero (`random.random() = 1/2`) every call contracts each
axis offset from the ideal point, and hence the squared distance to it,
exactly by the retention factor `0.95` (squared distance by `0.95 ^ 2`). -/
theorem advance_zero_contraction (s : DronePhysics)
    (h0 : 0 ≤ s.angle) (h1 : s.angle < 2 * Real.pi)
    (hsf : s.smooth_factor = 0.95) (hna : s.noise_amplitude = 0.000001) :
    (∀ l : List (ℝ × ℝ), (∀ p ∈ l, 0 ≤ p.1 ∧ p.1 ≤ 1 ∧ 0 ≤ p.2 ∧ p.2 ≤ 1) →
      (s.run (l.map (fun p => (0, p.1, p.2)))).angle = s.angle ∧
      |(s.run (l.map (fun p => (0, p.1, p.2)))).lat -
          (s.base_lat + s.radius * Real.cos s.angle)| ≤
        0.95 ^ l.length *
          |s.lat - (s.base_lat + s.radius * Real.cos s.angle)| +
        10 * 0.000001 * (1 - 0.95 ^ l.length) ∧
      |(s.run (l.map (fun p => (0, p.1, p.2)))).lng -
          (s.base_lng + s.radius * Real.sin s.angle)| ≤
        0.95 ^ l.length *
          |s.lng - (s.base_lng + s.radius * Real.sin s.angle)| +
        10 * 0.000001 * (1 - 0.95 ^ l.length)) ∧
    (∀ n : ℕ,
      (s.run (List.replicate n (0, 1/2, 1/2))).angle = s.angle ∧
      (s.run (List.replicate n (0, 1/2, 1/2))).lat -
          (s.base_lat + s.radius * Real.cos s.angle) =
        0.95 ^ n * (s.lat - (s.base_lat + s.radius * Real.cos s.angle)) ∧
      (s.run (List.replicate n (0, 1/2, 1/2))).lng -
          (s.base_lng + s.radius * Real.sin s.angle) =
        0.95 ^ n * (s.lng - (s.base_lng + s.radius * Real.sin s.angle)) ∧
      ((s.run (List.replicate n (0, 1/2, 1/2))).lat -
            (s.base_lat + s.radius * Real.cos s.angle)) ^ 2 +
          ((s.run (List.replicate n (0, 1/2, 1/2))).lng -
            (s.base_lng + s.radius * Real.sin s.angle)) ^ 2 =
        (0.95 ^ 2) ^ n *
          ((s.lat - (s.base_lat + s.radius * Real.cos s.angle)) ^ 2 +
            (s.lng - (s.base_lng + s.radius * Real.sin s.angle)) ^ 2)) := by
  refine ⟨fun l hl => advance_zero_noisy l s hl h0 h1 hsf hna, fun n => ?_⟩
  obtain ⟨ha, hlat, hlng⟩ := advance_zero_exact n s h0 h1 hsf hna
  refine ⟨ha, hlat, hlng, ?_⟩
  rw [hlat, hlng, ← pow_mul, mul_comm 2 n, pow_mul]
  ring

/-- Witness for C9 at the freshly constructed model. -/
theorem advance_zero_contraction_witness :
    (∀ l : List (ℝ × ℝ), (∀ p ∈ l, 0 ≤ p.1 ∧ p.1 ≤ 1 ∧ 0 ≤ p.2 ∧ p.2 ≤ 1) →
      ((DronePhysics.init 53.218282 63.658686 120).run
          (l.map (fun p => (0, p.1, p.2)))).angle =
        (DronePhysics.init 53.218282 63.658686 120).angle ∧
      |((DronePhysics.init 53.218282 63.658686 120).run
            (l.map (fun p => (0, p.1, p.2)))).lat -
          ((DronePhysics.init 53.218282 63.658686 120).base_lat +
            (DronePhysics.init 53.218282 63.658686 120).radius *
              Real.cos (DronePhysics.init 53.218282 63.658686 120).angle)| ≤
        0.95 ^ l.length *
          |(DronePhysics.init 53.218282 63.658686 120).lat -
            ((DronePhysics.init 53.218282 63.658686 120).base_lat +
              (DronePhysics.init 53.218282 63.658686 120).radius *
                Real.cos (DronePhysics.init 53.218282 63.658686 120).angle)| +
        10 * 0.000001 * (1 - 0.95 ^ l.length) ∧
      |((DronePhysics.init 53.218282 63.658686 120).run
            (l.map (fun p => (0, p.1, p.2)))).lng -
          ((DronePhysics.init 53.218282 63.658686 120).base_lng +
            (DronePhysics.init 53.218282 63.658686 120).radius *
              Real.sin (DronePhysics.init 53.218282 63.658686 120).angle)| ≤
        0.95 ^ l.length *
          |(DronePhysics.init 53.218282 63.658686 120).lng -
            ((DronePhysics.init 53.218282 63.658686 120).base_lng +
              (DronePhysics.init 53.218282 63.658686 120).radius *
                Real.sin (DronePhysics.init 53.218282 63.658686 120).angle)| +
        10 * 0.000001 * (1 - 0.95 ^ l.length)) ∧
    (∀ n : ℕ,
      ((DronePhysics.init 53.218282 63.658686 120).run
          (List.replicate n (0, 1/2, 1/2))).angle =
        (DronePhysics.init 53.218282 63.658686 120).angle ∧
      ((DronePhysics.init 53.218282 63.658686 120).run
            (List.replicate n (0, 1/2, 1/2))).lat -
          ((DronePhysics.init 53.218282 63.658686 120).base_lat +
            (DronePhysics.init 53.218282 63.658686 120).radius *
              Real.cos (DronePhysics.init 53.218282 63.658686 120).angle) =
        0.95 ^ n * ((DronePhysics.init 53.218282 63.658686 120).lat -
          ((DronePhysics.init 53.218282 63.658686 120).base_lat +
            (DronePhysics.init 53.218282 63.658686 120).radius *
              Real.cos (DronePhysics.init 53.218282 63.658686 120).angle)) ∧
      ((DronePhysics.init 53.218282 63.658686 120).run
            (List.replicate n (0, 1/2, 1/2))).lng -
          ((DronePhysics.init 53.218282 63.658686 120).base_lng +
            (DronePhysics.init 53.218282 63.658686 120).radius *
              Real.sin (DronePhysics.init 53.218282 63.658686 120).angle) =
        0.95 ^ n * ((DronePhysics.init 53.218282 63.658686 120).lng -
          ((DronePhysics.init 53.218282 63.658686 120).base_lng +
            (DronePhysics.init 53.218282 63.658686 120).radius *
              Real.sin (DronePhysics.init 53.218282 63.658686 120).angle)) ∧
      (((DronePhysics.init 53.218282 63.658686 120).run
            (List.replicate n (0, 1/2, 1/2))).lat -
          ((DronePhysics.init 53.218282 63.658686 120).base_lat +
            (DronePhysics.init 53.218282 63.658686 120).radius *
              Real.cos (DronePhysics.init 53.218282 63.658686 120).angle)) ^ 2 +
        (((DronePhysics.init 53.218282 63.658686 120).run
            (List.replicate n (0, 1/2, 1/2))).lng -
          ((DronePhysics.init 53.218282 63.658686 120).base_lng +
            (DronePhysics.init 53.218282 63.658686 120).radius *
              Real.sin (DronePhysics.init 53.218282 63.658686 120).angle)) ^ 2 =
        (0.95 ^ 2) ^ n *
          (((DronePhysics.init 53.218282 63.658686 120).lat -
            ((DronePhysics.init 53.218282 63.658686 120).base_lat +
              (DronePhysics.init 53.218282 63.658686 120).radius *
                Real.cos (DronePhysics.init 53.218282 63.658686 120).angle)) ^ 2 +
          ((DronePhysics.init 53.218282 63.658686 120).lng -
            ((DronePhysics.init 53.218282 63.658686 120).base_lng +
              (DronePhysics.init 53.218282 63.658686 120).radius *
                Real.sin (DronePhysics.init 53.218282 63.658686 120).angle)) ^ 2)) :=
  advance_zero_contraction (DronePhysics.init 53.218282 63.658686 120)
    (by rw [init_angle]) (by rw [init_angle]; exact Real.two_pi_pos)
    (init_smooth_factor ..) (init_noise_amplitude ..)

/-- An outbound WebSocket frame: the welcome frame (lines 127–132) or a
GPS telemetry frame (lines 152–174).  The timestamp string of a GPS
frame is informational and is abstracted away. -/
inductive Frame where
  | info (message : String) (drone_id : String) : Frame
  | gps (drone_id : String) (latitude longitude altitude : ℝ)
      (velocity acceleration target : ℝ × ℝ × ℝ) : Frame

/-- The `"type"` field of a frame. -/
def Frame.ftype : Frame → String
  | .info .. => "info"
  | .gps .. => "gps"

/-- The welcome frame `welcome_msg` (lines 127–132). -/
def welcome_msg (drone_id : String) : Frame :=
  Frame.info "Connected to drone simulator" drone_id

/-- The telemetry frame `gps_update` built from the model state
(lines 152–174). -/
noncomputable def gps_update (drone_id : String) (s : DronePhysics) : Frame :=
  Frame.gps drone_id s.lat s.lng s.alt
    (s.vel_lat, s.vel_lng, s.vel_alt)
    (s.acc_lat, s.acc_lng, s.acc_alt)
    (s.target_lat, s.target_lng, s.target_alt)

/-- The frames sent by `physics_loop` (lines 138–187): each iteration
calls `update` with the measured `dt` (and the two random draws), then
sends one GPS frame built from the updated state. -/
noncomputable def physics_loop_sends (drone_id : String) (s : DronePhysics) :
    List (ℝ × ℝ × ℝ) → List Frame
  | [] => []
  | t :: rest =>
    gps_update drone_id (s.update t.1 t.2.1 t.2.2) ::
      physics_loop_sends drone_id (s.update t.1 t.2.1 t.2.2) rest

/-- `message_handler` (lines 189–205): for each inbound text frame it
attempts `json.loads` (embedded as the parameter `loads`); on success it
logs the message, on `JSONDecodeError` it logs a diagnostic; in both
cases it continues with the next frame and sends nothing.  Returns the
log lines and the frames it sent. -/
def message_handler_run {α : Type} (loads : String → Option α) :
    List String → List String × List Frame
  | [] => ([], [])
  | m :: rest =>
    let log := match loads m with
      | some _ => "Received message: " ++ m
      | none => "Invalid JSON received: " ++ m
    (log :: (message_handler_run loads rest).1,
      (message_handler_run loads rest).2)

/-- All frames `handle_client` (lines 113–212) sends on one connection:
the welcome frame first, then the frames of the two concurrent loops.
The drain sends no frames, so listing the publisher's frames followed by
the drain's covers every interleaving. -/
noncomputable def handle_client_outbound {α : Type} (drone_id : String)
    (init_lat init_lng init_alt : ℝ) (ticks : List (ℝ × ℝ × ℝ))
    (loads : String → Option α) (msgs : List String) : List Frame :=
  welcome_msg drone_id ::
    (physics_loop_sends drone_id
        (DronePhysics.init init_lat init_lng init_alt) ticks ++
      (message_handler_run loads msgs).2)

theorem physics_loop_sends_gps (drone_id : String)
    (ticks : List (ℝ × ℝ × ℝ)) (s : DronePhysics) :
    ∀ f ∈ physics_loop_sends drone_id s ticks, f.ftype = "gps" := by
  induction ticks generalizing s with
  | nil => intro f hf; exact absurd hf (List.not_mem_nil f)
  | cons t rest ih =>
    intro f hf
    rcases List.mem_cons.mp hf with h | h
    · rw [h]; rfl
    · exact ih _ f h

theorem message_handler_sends_nil {α : Type} (loads : String → Option α)
    (msgs : List String) : (message_handler_run loads msgs).2 = [] := by
  induction msgs with
  | nil => rfl
  | cons m rest ih => simpa [message_handler_run] using ih

theorem message_handler_logs_length {α : Type} (loads : String → Option α)
    (msgs : List String) :
    (message_handler_run loads msgs).1.length = msgs.length := by
  induction msgs with
  | nil => rfl
  | cons m rest ih => simpa [message_handler_run] using ih

theorem filter_info_physics_nil (drone_id : String)
    (ticks : List (ℝ × ℝ × ℝ)) (s : DronePhysics) :
    (physics_loop_sends drone_id s ticks).filter
      (fun f => f.ftype == "info") = [] := by
  rw [List.filter_eq_nil_iff]
  intro f hf
  rw [physics_loop_sends_gps drone_id ticks s f hf]
  decide

/-- C6: on every connection, the first frame sent is the single info
frame announcing the connection and the drone identifier, every later
frame is a gps telemetry frame, and exactly one info frame appears in
the whole outbound sequence. -/
theorem frames_one_info_then_gps {α : Type} (drone_id : String)
    (a b c : ℝ) (ticks : List (ℝ × ℝ × ℝ)) (loads : String → Option α)
    (msgs : List String) :
    (handle_client_outbound drone_id a b c ticks loads msgs).head? =
      some (Frame.info "Connected to drone simulator" drone_id) ∧
    Frame.ftype (welcome_msg drone_id) = "info" ∧
    (∀ f ∈ (handle_client_outbound drone_id a b c ticks loads msgs).tail,
      f.ftype = "gps") ∧
    ((handle_client_outbound drone_id a b c ticks loads msgs).filter
      (fun f => f.ftype == "info")).length = 1 := by
  unfold handle_client_outbound
  rw [message_handler_sends_nil, List.append_nil]
  refine ⟨rfl, rfl, ?_, ?_⟩
  · intro f hf
    rw [List.tail_cons] at hf
    exact physics_loop_sends_gps drone_id ticks _ f hf
  · rw [List.filter_cons_of_pos (by rfl), filter_info_physics_nil]
    rfl

theorem message_handler_log_invalid {α : Type} (loads : String → Option α)
    (msgs : List String) (m : String) (hm : m ∈ msgs)
    (hp : loads m = none) :
    ("Invalid JSON received: " ++ m) ∈ (message_handler_run loads msgs).1 := by
  induction msgs with
  | nil => exact absurd hm (List.not_mem_nil m)
  | cons x rest ih =>
    rcases List.mem_cons.mp hm with h | h
    · subst h
      simp [message_handler_run, hp]
    · exact List.mem_cons_of_mem _ (ih h)

/-- C7: an inbound text frame that fails to parse as JSON is discarded
after a diagnostic log line; the handler keeps processing every inbound
frame (one log line per frame, no early stop), never sends any frame —
in particular no frame of type "error" — and the connection's outbound
frame sequence (the info frame and the gps telemetry) is exactly what it
would be with no inbound traffic at all. -/
theorem invalid_json_nonfatal {α : Type} (loads : String → Option α)
    (msgs : List String) (m : String) (hm : m ∈ msgs)
    (hp : loads m = none) :
    ("Invalid JSON received: " ++ m) ∈ (message_handler_run loads msgs).1 ∧
    (message_handler_run loads msgs).2 = [] ∧
    (∀ f ∈ (message_handler_run loads msgs).2, f.ftype ≠ "error") ∧
    (message_handler_run loads msgs).1.length = msgs.length ∧
    (∀ (drone_id : String) (a b c : ℝ) (ticks : List (ℝ × ℝ × ℝ)),
      handle_client_outbound drone_id a b c ticks loads msgs =
        handle_client_outbound drone_id a b c ticks loads []) := by
  refine ⟨message_handler_log_invalid loads msgs m hm hp,
    message_handler_sends_nil loads msgs, ?_,
    message_handler_logs_length loads msgs, ?_⟩
  · intro f hf
    rw [message_handler_sends_nil] at hf
    exact absurd hf (List.not_mem_nil f)
  · intro drone_id a b c ticks
    unfold handle_client_outbound
    rw [message_handler_sends_nil, message_handler_sends_nil]

/-- Witness for C7: the handler receives the single malformed frame
`"not json"` under a parse function rejecting it. -/
theorem invalid_json_nonfatal_witness :
    ("Invalid JSON received: " ++ "not json") ∈
      (message_handler_run (fun _ => (none : Option Unit)) ["not json"]).1 ∧
    (message_handler_run (fun _ => (none : Option Unit)) ["not json"]).2 = [] ∧
    (∀ f ∈ (message_handler_run (fun _ => (none : Option Unit))
        ["not json"]).2, f.ftype ≠ "error") ∧
    (message_handler_run (fun _ => (none : Option Unit))
        ["not json"]).1.length = (["not json"] : List String).length ∧
    (∀ (drone_id : String) (a b c : ℝ) (ticks : List (ℝ × ℝ × ℝ)),
      handle_client_outbound drone_id a b c ticks
          (fun _ => (none : Option Unit)) ["not json"] =
        handle_client_outbound drone_id a b c ticks
          (fun _ => (none : Option Unit)) []) :=
  invalid_json_nonfatal (fun _ => (none : Option Unit)) ["not json"]
    "not json" (List.mem_singleton.mpr rfl) rfl

/-- Status of one of the two per-connection coroutines. -/
inductive TaskStatus where
  | running
  | completed
  | cancelled
deriving DecidableEq

/-- Supervision state of one connection: the two coroutines passed to
`asyncio.gather` (lines 207–212) and whether `handle_client` has
returned from the `gather` call, at which point the `DronePhysics`
instance goes out of scope and is released. -/
structure ConnState where
  physicsTask : TaskStatus
  handlerTask : TaskStatus
  modelReleased : Bool
deriving DecidableEq

/-- Transitions of the per-connection supervision, following the
semantics of `await asyncio.gather(physics_loop(), message_handler(),
return_exceptions=True)` (lines 207–212): either coroutine may finish on
its own (its loop breaks or returns on a closed connection or an error,
and with `return_exceptions=True` an exception is captured as a result,
not propagated); `gather` returns — letting `handle_client` release the
model — only when both coroutines have finished.  No transition cancels
a coroutine: `gather` with `return_exceptions=True` never cancels the
sibling of a coroutine that terminated. -/
inductive ConnStep : ConnState → ConnState → Prop where
  | physicsExit (h : TaskStatus) (r : Bool) :
      ConnStep ⟨TaskStatus.running, h, r⟩ ⟨TaskStatus.completed, h, r⟩
  | handlerExit (p : TaskStatus) (r : Bool) :
      ConnStep ⟨p, TaskStatus.running, r⟩ ⟨p, TaskStatus.completed, r⟩
  | gatherReturn :
      ConnStep ⟨TaskStatus.completed, TaskStatus.completed, false⟩
        ⟨TaskStatus.completed, TaskStatus.completed, true⟩

/-- The state right after a connection is accepted: both coroutines
running, the model held. -/
def connInit : ConnState :=
  ⟨TaskStatus.running, TaskStatus.running, false⟩

/-- States a connection can reach from `connInit`. -/
inductive ConnReachable : ConnState → Prop where
  | init : ConnReachable connInit
  | step {s s' : ConnState} :
      ConnReachable s → ConnStep s s' → ConnReachable s'

theorem connReachable_no_cancel {s : ConnState} (h : ConnReachable s) :
    s.physicsTask ≠ TaskStatus.cancelled ∧
      s.handlerTask ≠ TaskStatus.cancelled := by
  induction h with
  | init => exact ⟨by simp [connInit], by simp [connInit]⟩
  | step hr hstep ih => cases hstep <;> simp_all

theorem connReachable_release {s : ConnState} (h : ConnReachable s) :
    s.modelReleased = true →
      s.physicsTask = TaskStatus.completed ∧
        s.handlerTask = TaskStatus.completed := by
  induction h with
  | init => intro hrel; exact absurd hrel (by simp [connInit])
  | step hr hstep ih => cases hstep <;> simp_all

/-- Counterexample to C2: the publisher can terminate while the drain is
still running, and from no reachable state of the connection is either
coroutine ever cancelled — `asyncio.gather` with `return_exceptions=True`
has no cancellation transition, so "the other activity is promptly
cancelled" is false. -/
theorem gather_no_cancellation_counterexample :
    ConnReachable
      ⟨TaskStatus.completed, TaskStatus.running, false⟩ ∧
    ∀ s : ConnState, ConnReachable s →
      s.physicsTask ≠ TaskStatus.cancelled ∧
        s.handlerTask ≠ TaskStatus.cancelled :=
  ⟨ConnReachable.step ConnReachable.init
      (ConnStep.physicsExit TaskStatus.running false),
    fun _ h => connReachable_no_cancel h⟩

/-- C2 amended: when one per-connection activity terminates, the other
is not cancelled — it keeps running until it terminates on its own
(no reachable state has a cancelled coroutine) — and the trajectory
model is released only after both activities have ended. -/
theorem gather_joint_termination (s : ConnState) (h : ConnReachable s) :
    (s.modelReleased = true →
      s.physicsTask = TaskStatus.completed ∧
        s.handlerTask = TaskStatus.completed) ∧
    s.physicsTask ≠ TaskStatus.cancelled ∧
    s.handlerTask ≠ TaskStatus.cancelled :=
  ⟨connReachable_release h, connReachable_no_cancel h⟩

/-- Witness for the amended C2 at the initial connection state. -/
theorem gather_joint_termination_witness :
    ((connInit.modelReleased = true →
      connInit.physicsTask = TaskStatus.completed ∧
        connInit.handlerTask = TaskStatus.completed) ∧
    connInit.physicsTask ≠ TaskStatus.cancelled ∧
    connInit.handlerTask ≠ TaskStatus.cancelled) :=
  gather_joint_termination connInit ConnReachable.init
